import Mathlib

/-!
Verification of the mode/session lifecycle coordinator of the
vocational-ar-training repository.

The development shallowly embeds the JavaScript source:

* `PoseDetectionController` — src/pose/pose-detection.js (MediaPipe adapter):
  resource state, the `stop` teardown sequence, and the `init` start path.
* `MoveNetDetectionController` — the MoveNet adapter (unnamed part_001):
  resource state and its `stop` teardown sequence.
* `ThreeJSARController` — src/ar/threejs-ar-controller.js: `enterAR`
  failure handling and the `onSelect` tap handler.
* `ModeManager` — the coordinator (src/main.js and unnamed part_003, whose
  shared operations are line-for-line identical; unnamed part_002 differs
  only in its `startThreeJSAR`, embedded separately).

Machine state is modelled with explicit fields (Bool for owned/not-owned
resources, `Option Nat` for a media stream's live track count); teardown
primitives that the source wraps in try/catch are driven by an explicit
fault record so that error-swallowing behaviour is provable.
-/

/-- Faults injectable into the teardown primitives of a pose controller.
Each flag makes the corresponding underlying library call throw. -/
structure TeardownFaults where
  detectorCloseThrows : Bool
  cameraStopThrows : Bool
  trackStopThrows : Bool
deriving DecidableEq, Repr

/-- The fault-free environment: every teardown primitive succeeds. -/
def TeardownFaults.quiet : TeardownFaults :=
  { detectorCloseThrows := false, cameraStopThrows := false, trackStopThrows := false }

/-- The one teardown error the adapters do not catch: an exception from
`track.stop()` inside the `tracks.forEach` loop. -/
inductive TeardownErr where
  | trackStop
deriving DecidableEq, Repr

/-- Result of running an adapter's `stop`: the state it reached, which
caught errors it logged as warnings, and the error it propagated (if any). -/
structure StopOutcome (σ : Type) where
  state : σ
  warnedDetectorClose : Bool
  warnedCameraStop : Bool
  thrown : Option TeardownErr
deriving DecidableEq, Repr

/-- Resource state of the MediaPipe adapter (class `PoseDetectionController`
in src/pose/pose-detection.js).  `video`/`ctx` record whether the DOM video
element and canvas context were obtained; `detector` whether a MediaPipe
`Pose` instance is allocated; `camera` whether a MediaPipe `Camera` instance
exists; `srcTracks` the live track count of `video.srcObject` (`none` when
`srcObject` is null). -/
structure PoseDetectionController where
  video : Bool
  ctx : Bool
  detector : Bool
  camera : Bool
  isActive : Bool
  animationFrameId : Bool
  srcTracks : Option Nat
  videoPaused : Bool
  videoSrcEmpty : Bool
  canvasCleared : Bool
  errorShown : Bool
deriving DecidableEq, Repr

/-- The teardown sequence `PoseDetectionController.stop`
(src/pose/pose-detection.js lines 431-487), step by step:
set `isActive` false; close the detector (errors caught and logged) and
null it; stop the MediaPipe camera (errors caught and logged) and null it;
cancel any animation frame; stop every track of `video.srcObject` — this
loop is NOT inside a try/catch, so a throwing `track.stop()` escapes the
method before `srcObject` is cleared; otherwise clear `srcObject`, pause
the video, clear its `src`, and clear the canvas. -/
def PoseDetectionController.stop (f : TeardownFaults) (s : PoseDetectionController) :
    StopOutcome PoseDetectionController :=
  let s1 := { s with isActive := false }
  let warnD := s1.detector && f.detectorCloseThrows
  let s2 := if s1.detector then { s1 with detector := false } else s1
  let warnC := s2.camera && f.cameraStopThrows
  let s3 := if s2.camera then { s2 with camera := false } else s2
  let s4 := if s3.animationFrameId then { s3 with animationFrameId := false } else s3
  match s4.video, s4.srcTracks with
  | true, some (Nat.succ n) =>
      if f.trackStopThrows then
        -- the first track.stop() throws: srcObject keeps its tracks and the
        -- exception propagates out of stop before pause/src/canvas cleanup
        { state := { s4 with srcTracks := some (Nat.succ n) },
          warnedDetectorClose := warnD, warnedCameraStop := warnC,
          thrown := some TeardownErr.trackStop }
      else
        let s5 := { s4 with srcTracks := none, videoPaused := true, videoSrcEmpty := true }
        let s6 := if s5.ctx then { s5 with canvasCleared := true } else s5
        { state := s6, warnedDetectorClose := warnD, warnedCameraStop := warnC, thrown := none }
  | true, some 0 =>
      let s5 := { s4 with srcTracks := none, videoPaused := true, videoSrcEmpty := true }
      let s6 := if s5.ctx then { s5 with canvasCleared := true } else s5
      { state := s6, warnedDetectorClose := warnD, warnedCameraStop := warnC, thrown := none }
  | true, none =>
      let s5 := { s4 with videoPaused := true, videoSrcEmpty := true }
      let s6 := if s5.ctx then { s5 with canvasCleared := true } else s5
      { state := s6, warnedDetectorClose := warnD, warnedCameraStop := warnC, thrown := none }
  | false, _ =>
      let s6 := if s4.ctx then { s4 with canvasCleared := true } else s4
      { state := s6, warnedDetectorClose := warnD, warnedCameraStop := warnC, thrown := none }

/-- Resource state of the MoveNet adapter (class `MoveNetDetectionController`
in the repository's movenet-detection source, unnamed part_001).  It has no
separate `Camera` utility instance: the stream lives on `video.srcObject`. -/
structure MoveNetDetectionController where
  video : Bool
  ctx : Bool
  detector : Bool
  isActive : Bool
  animationFrameId : Bool
  srcTracks : Option Nat
  videoPaused : Bool
  videoSrcEmpty : Bool
  canvasCleared : Bool
  errorShown : Bool
deriving DecidableEq, Repr

/-- The teardown sequence `MoveNetDetectionController.stop`
(unnamed part_001 lines 260-302): set `isActive` false; cancel the
animation frame; dispose the TensorFlow detector (errors caught and
logged) and null it; stop every track of `video.srcObject` (not inside a
try/catch); clear `srcObject`, pause the video, clear `src`; clear the
canvas.  `warnedCameraStop` is always false: this adapter has no camera
utility to stop. -/
def MoveNetDetectionController.stop (f : TeardownFaults) (s : MoveNetDetectionController) :
    StopOutcome MoveNetDetectionController :=
  let s1 := { s with isActive := false }
  let s2 := if s1.animationFrameId then { s1 with animationFrameId := false } else s1
  let warnD := s2.detector && f.detectorCloseThrows
  let s3 := if s2.detector then { s2 with detector := false } else s2
  match s3.video, s3.srcTracks with
  | true, some (Nat.succ n) =>
      if f.trackStopThrows then
        { state := { s3 with srcTracks := some (Nat.succ n) },
          warnedDetectorClose := warnD, warnedCameraStop := false,
          thrown := some TeardownErr.trackStop }
      else
        let s4 := { s3 with srcTracks := none, videoPaused := true, videoSrcEmpty := true }
        let s5 := if s4.ctx then { s4 with canvasCleared := true } else s4
        { state := s5, warnedDetectorClose := warnD, warnedCameraStop := false, thrown := none }
  | true, some 0 =>
      let s4 := { s3 with srcTracks := none, videoPaused := true, videoSrcEmpty := true }
      let s5 := if s4.ctx then { s4 with canvasCleared := true } else s4
      { state := s5, warnedDetectorClose := warnD, warnedCameraStop := false, thrown := none }
  | true, none =>
      let s4 := { s3 with videoPaused := true, videoSrcEmpty := true }
      let s5 := if s4.ctx then { s4 with canvasCleared := true } else s4
      { state := s5, warnedDetectorClose := warnD, warnedCameraStop := false, thrown := none }
  | false, _ =>
      let s5 := if s3.ctx then { s3 with canvasCleared := true } else s3
      { state := s5, warnedDetectorClose := warnD, warnedCameraStop := false, thrown := none }

/-- Failure points of the MediaPipe adapter's asynchronous start path
(`init` → `setupMediaPipePose` → `startCameraWithMediaPipe`). -/
inductive PoseStartFault where
  | ok
  | poseLibMissing
  | detectorInitFails
  | cameraUtilMissing
  | cameraStartFails
deriving DecidableEq, Repr

/-- The field state a freshly constructed `PoseDetectionController` starts
from (constructor, src/pose/pose-detection.js lines 3-14). -/
def PoseDetectionController.ctorState : PoseDetectionController :=
  { video := false, ctx := false, detector := false, camera := false,
    isActive := false, animationFrameId := false, srcTracks := none,
    videoPaused := false, videoSrcEmpty := false, canvasCleared := false,
    errorShown := false }

/-- The MediaPipe start path run to completion from construction
(src/pose/pose-detection.js 16-54, 81-135, 150-191).  `init` grabs the
video element and canvas context; `setupMediaPipePose` allocates the
detector, then calls `startCameraWithMediaPipe`, which allocates the
`Camera` utility and starts it.  Every failure branch only calls
`showError`: neither catch block disposes the detector or the camera
instance that was already allocated, so those fields stay set. -/
def PoseDetectionController.initRun (f : PoseStartFault) : PoseDetectionController :=
  let base := { PoseDetectionController.ctorState with video := true, ctx := true }
  match f with
  | .poseLibMissing => { base with errorShown := true }
  | .detectorInitFails => { base with detector := true, errorShown := true }
  | .cameraUtilMissing => { base with detector := true, errorShown := true }
  | .cameraStartFails => { base with detector := true, camera := true, errorShown := true }
  | .ok => { base with detector := true, camera := true, isActive := true, srcTracks := some 1 }

/-- Failure points of `ThreeJSARController.enterAR`
(src/ar/threejs-ar-controller.js lines 146-214). -/
inductive EnterARFault where
  | ok
  | requestSessionFails
  | setSessionFails
  | refSpaceFails
  | hitTestSourceFails
deriving DecidableEq, Repr

/-- Session-relevant events emitted while `enterAR` runs. -/
inductive ARXEvent where
  | sessionRequested
  | sessionEnded
  | animLoopStarted
deriving DecidableEq, Repr

/-- State of the Three.js WebXR AR adapter (class `ThreeJSARController` in
src/ar/threejs-ar-controller.js).  `xrSession` and `hitTestSource` record
whether those handles are non-null; `sceneObjects`/`placedObjects` list the
positions of the spheres added by `onSelect`. -/
structure ThreeJSARController where
  renderer : Bool
  xrSession : Bool
  hitTestSource : Bool
  isARActive : Bool
  animLoop : Bool
  reticleVisible : Bool
  reticleX : ℚ
  reticleY : ℚ
  reticleZ : ℚ
  sceneObjects : List (ℚ × ℚ × ℚ)
  placedObjects : List (ℚ × ℚ × ℚ)
  modelCount : Nat
  statusText : String
  modelCountLabel : String
  arButtonLabel : String
deriving DecidableEq, Repr

/-- The `enterAR` sequence (src/ar/threejs-ar-controller.js 146-214):
request an XR session, hand it to the renderer, request a local-floor
reference space and a hit-test source, install listeners, start the render
loop.  The catch block (lines 186-213) is the failure path: if a session
was created it is ended (inner errors swallowed) and both `xrSession` and
`hitTestSource` are set to null before an error status is shown. -/
def ThreeJSARController.enterAR (f : EnterARFault) (s : ThreeJSARController) :
    ThreeJSARController × List ARXEvent :=
  let s0 := { s with statusText := "Starting AR..." }
  match f with
  | .requestSessionFails =>
      -- requestSession threw, so this.xrSession keeps its previous value
      if s0.xrSession then
        ({ s0 with xrSession := false, hitTestSource := false, statusText := "AR failed" },
         [ARXEvent.sessionEnded])
      else
        ({ s0 with statusText := "AR failed" }, [])
  | .setSessionFails =>
      let s1 := { s0 with xrSession := true }
      ({ s1 with xrSession := false, hitTestSource := false, statusText := "AR failed" },
       [ARXEvent.sessionRequested, ARXEvent.sessionEnded])
  | .refSpaceFails =>
      let s1 := { s0 with xrSession := true }
      ({ s1 with xrSession := false, hitTestSource := false, statusText := "AR failed" },
       [ARXEvent.sessionRequested, ARXEvent.sessionEnded])
  | .hitTestSourceFails =>
      let s1 := { s0 with xrSession := true }
      ({ s1 with xrSession := false, hitTestSource := false, statusText := "AR failed" },
       [ARXEvent.sessionRequested, ARXEvent.sessionEnded])
  | .ok =>
      ({ s0 with xrSession := true, hitTestSource := true, animLoop := true,
                 isARActive := true, statusText := "Scanning...",
                 arButtonLabel := "Exit AR" },
       [ARXEvent.sessionRequested, ARXEvent.animLoopStarted])

/-- The select (tap) handler `onSelect`
(src/ar/threejs-ar-controller.js lines 245-271): if the reticle is not
visible the handler returns immediately; otherwise a sphere is created at
the reticle position, added to the scene and the placed-objects list, the
counter is incremented, and the status/counter labels are updated. -/
def ThreeJSARController.onSelect (s : ThreeJSARController) : ThreeJSARController :=
  if s.reticleVisible = false then s
  else
    let pos := (s.reticleX, s.reticleY, s.reticleZ)
    { s with sceneObjects := s.sceneObjects ++ [pos],
             placedObjects := s.placedObjects ++ [pos],
             modelCount := s.modelCount + 1,
             modelCountLabel := "Models: " ++ toString (s.modelCount + 1),
             statusText := "Placed " ++ toString (s.modelCount + 1) }

/-- A 2D keypoint delivered by the MoveNet engine: position plus a
confidence score in [0,1]. -/
structure MNKeypoint where
  x : ℚ
  y : ℚ
  score : ℚ
deriving DecidableEq, Repr

/-- A landmark delivered by the MediaPipe engine: normalised position plus
a visibility (confidence) value in [0,1]. -/
structure MPLandmark where
  x : ℚ
  y : ℚ
  visibility : ℚ
deriving DecidableEq, Repr

/-- A drawing command issued to the 2D canvas overlay. -/
inductive DrawCmd where
  | line (x1 y1 x2 y2 : ℚ) (color : String) (width : ℚ)
  | dot (x y radius : ℚ) (color : String)
  | label (text : String) (x y : ℚ)
deriving DecidableEq, Repr

/-- Skeleton connection index pairs of `MoveNetDetectionController.drawPose`
(unnamed part_001 lines 157-170). -/
def moveNetConnections : List (Nat × Nat) :=
  [(5, 6), (5, 7), (7, 9), (6, 8), (8, 10), (5, 11), (6, 12),
   (11, 12), (11, 13), (13, 15), (12, 14), (14, 16)]

/-- Connection lines of `drawPose` (unnamed part_001 lines 172-186): a line
is drawn for a pair exactly when both endpoint scores exceed 0.3; x is
mirrored against the canvas width. -/
def MoveNetDetectionController.connectionLines (w : ℚ) (kps : List MNKeypoint) :
    List DrawCmd :=
  moveNetConnections.filterMap fun p =>
    match kps.get? p.1, kps.get? p.2 with
    | some a, some b =>
        if 3 / 10 < a.score ∧ 3 / 10 < b.score then
          some (DrawCmd.line (w - a.x) a.y (w - b.x) b.y "#00FF00" 2)
        else none
    | _, _ => none

/-- Keypoint dots of `drawPose` (unnamed part_001 lines 188-203): a green
radius-6 dot for each keypoint whose score exceeds 0.3. -/
def MoveNetDetectionController.keypointDots (w : ℚ) (kps : List MNKeypoint) :
    List DrawCmd :=
  kps.filterMap fun k =>
    if 3 / 10 < k.score then some (DrawCmd.dot (w - k.x) k.y 6 "#00FF00") else none

/-- Wrist highlight of `drawPose` (unnamed part_001 lines 205-246): for the
keypoint at `idx` (9 = left wrist, 10 = right wrist) with score above 0.3,
a large radius-15 dot in the given colour plus a text label. -/
def MoveNetDetectionController.wristHighlight (w : ℚ) (kps : List MNKeypoint)
    (idx : Nat) (color lab : String) : List DrawCmd :=
  match kps.get? idx with
  | some k =>
      if 3 / 10 < k.score then
        [DrawCmd.dot (w - k.x) k.y 15 color, DrawCmd.label lab (w - k.x + 20) k.y]
      else []
  | none => []

/-- Full per-pose rendering of `MoveNetDetectionController.drawPose`
(unnamed part_001 lines 153-247). -/
def MoveNetDetectionController.drawPose (w : ℚ) (kps : List MNKeypoint) :
    List DrawCmd :=
  MoveNetDetectionController.connectionLines w kps
    ++ MoveNetDetectionController.keypointDots w kps
    ++ MoveNetDetectionController.wristHighlight w kps 9 "#FF00FF" "LEFT"
    ++ MoveNetDetectionController.wristHighlight w kps 10 "#00FFFF" "RIGHT"

/-- Rendering that the spec's words describe for keypoint markers: a marker
for exactly the keypoints whose score is above the engine's fixed
threshold.  Used to compare the source's `keypointDots` against the spec. -/
def specKeypointMarkers (w : ℚ) (kps : List MNKeypoint) : List DrawCmd :=
  (kps.filter fun k => 3 / 10 < k.score).map fun k =>
    DrawCmd.dot (w - k.x) k.y 6 "#00FF00"

/-- Landmark dots of `PoseDetectionController.drawLandmarksManual`
(src/pose/pose-detection.js lines 266-283): a green radius-6 dot for EVERY
landmark — the source comments "Draw even if visibility is low" and applies
no confidence test. -/
def PoseDetectionController.drawLandmarksManual (w h : ℚ) (lms : List MPLandmark) :
    List DrawCmd :=
  lms.map fun l => DrawCmd.dot (l.x * w) (l.y * h) 6 "#00FF00"

/-- Skeleton connection pairs of `drawConnectionsManual`
(src/pose/pose-detection.js lines 287-295). -/
def mediaPipeConnections : List (Nat × Nat) :=
  [(11, 12), (11, 13), (13, 15), (12, 14), (14, 16), (11, 23), (12, 24),
   (23, 24), (23, 25), (25, 27), (24, 26), (26, 28)]

/-- Connection lines of `drawConnectionsManual`
(src/pose/pose-detection.js lines 285-317): drawn only when both endpoint
visibilities exceed 0.5. -/
def PoseDetectionController.drawConnectionsManual (w h : ℚ) (lms : List MPLandmark) :
    List DrawCmd :=
  mediaPipeConnections.filterMap fun p =>
    match lms.get? p.1, lms.get? p.2 with
    | some a, some b =>
        if 1 / 2 < a.visibility ∧ 1 / 2 < b.visibility then
          some (DrawCmd.line (a.x * w) (a.y * h) (b.x * w) (b.y * h) "#00FF00" 2)
        else none
    | _, _ => none

/-- Hand highlight of `drawHandLandmarks`
(src/pose/pose-detection.js lines 319-396): a large radius-15 coloured dot
and label at the wrist, plus lines and radius-10 dots toward the index
finger and thumb landmarks when those are present.  No visibility test is
applied anywhere in this routine. -/
def PoseDetectionController.drawHandLandmarks (w h : ℚ) (wrist : MPLandmark)
    (idxF thumb : Option MPLandmark) (color lab : String) : List DrawCmd :=
  [DrawCmd.dot (wrist.x * w) (wrist.y * h) 15 color,
   DrawCmd.label lab (wrist.x * w + 20) (wrist.y * h)]
    ++ (match idxF with
        | some i =>
            [DrawCmd.line (wrist.x * w) (wrist.y * h) (i.x * w) (i.y * h) color 5,
             DrawCmd.dot (i.x * w) (i.y * h) 10 color]
        | none => [])
    ++ (match thumb with
        | some t =>
            [DrawCmd.line (wrist.x * w) (wrist.y * h) (t.x * w) (t.y * h) color 5,
             DrawCmd.dot (t.x * w) (t.y * h) 10 color]
        | none => [])

/-- Per-frame rendering of `PoseDetectionController.onResults`
(src/pose/pose-detection.js lines 215-264) when landmarks are present:
connections, then all landmark dots, then hand highlights for landmark 15
(left wrist) and 16 (right wrist) whenever those entries exist —
independent of their visibility values. -/
def PoseDetectionController.onResultsDraw (w h : ℚ) (lms : List MPLandmark) :
    List DrawCmd :=
  PoseDetectionController.drawConnectionsManual w h lms
    ++ PoseDetectionController.drawLandmarksManual w h lms
    ++ (match lms.get? 15 with
        | some lw =>
            PoseDetectionController.drawHandLandmarks w h lw (lms.get? 19) (lms.get? 21)
              "#FF00FF" "LEFT"
        | none => [])
    ++ (match lms.get? 16 with
        | some rw =>
            PoseDetectionController.drawHandLandmarks w h rw (lms.get? 20) (lms.get? 22)
              "#00FFFF" "RIGHT"
        | none => [])

/-- Top-level application mode. -/
inductive Mode where
  | ar
  | pose
deriving DecidableEq, Repr

/-- Pose engine selection. -/
inductive PoseEngine where
  | mediapipe
  | movenet
deriving DecidableEq, Repr

/-- AR engine selection (part_003 offers both; src/main.js only A-Frame). -/
inductive AREngine where
  | aframe
  | threejs
deriving DecidableEq, Repr

/-- A pose controller as seen by the coordinator: which engine it wraps and
whether it currently holds a live Session (camera stream, detector). -/
structure PoseCtrl where
  engine : PoseEngine
  isActive : Bool
deriving DecidableEq, Repr

/-- An AR controller as seen by the coordinator. -/
structure ARCtrl where
  engine : AREngine
  isARActive : Bool
deriving DecidableEq, Repr

/-- Hidden-class state of the five screens the ModeManager toggles. -/
structure Screens where
  modeSelectorHidden : Bool
  arEngineSelectorHidden : Bool
  poseEngineSelectorHidden : Bool
  arModeHidden : Bool
  poseModeHidden : Bool
deriving DecidableEq, Repr

/-- Session-relevant events emitted while a ModeManager operation runs, in
program order: stopping an adapter, awaiting a settle delay (milliseconds),
constructing an adapter, navigating away (part_002 only). -/
inductive Event where
  | stopPose
  | stopAR
  | settle (ms : Nat)
  | constructPose (e : PoseEngine)
  | constructAR (e : AREngine)
  | navigate
deriving DecidableEq, Repr

/-- State of the coordinator (class `ModeManager`, unnamed part_003; the
fields of src/main.js are the subset without the AR-engine tracking).
`leakedPose`/`leakedAR` record controllers whose reference was overwritten
by a new construction without `stop` being called on them: the coordinator
can no longer reach them but any camera/GPU resources they hold stay
acquired. -/
structure ModeManager where
  switching : Bool
  currentMode : Option Mode
  currentPoseEngine : Option PoseEngine
  currentAREngine : Option AREngine
  poseController : Option PoseCtrl
  arController : Option ARCtrl
  leakedPose : List PoseCtrl
  leakedAR : List ARCtrl
  screens : Screens
  statusText : String
  navigatedAway : Bool
deriving DecidableEq, Repr

/-- The state the ModeManager constructor builds (part_003 lines 3-27). -/
def ModeManager.initial : ModeManager :=
  { switching := false, currentMode := none, currentPoseEngine := none,
    currentAREngine := none, poseController := none, arController := none,
    leakedPose := [], leakedAR := [],
    screens := { modeSelectorHidden := false, arEngineSelectorHidden := true,
                 poseEngineSelectorHidden := true, arModeHidden := true,
                 poseModeHidden := true },
    statusText := "", navigatedAway := false }

/-- Result of one coordinator operation: the state reached, the ordered
session events it performed, and whether the request was accepted or
rejected by the pending-flag guard. -/
inductive SwitchOutcome where
  | busy
  | done
deriving DecidableEq, Repr

/-- Packaged result of a coordinator operation. -/
structure StepResult where
  state : ModeManager
  trace : List Event
  outcome : SwitchOutcome
deriving DecidableEq, Repr

/-- `showModeSelector` (part_003 lines 47-90; src/main.js 39-81 identical):
busy guard; set the pending flag; if the current mode is pose and a pose
controller exists, stop it, wait 800 ms, and null the reference and engine;
if the current mode is AR and the AR controller is active, stop it and wait
500 ms; show only the mode selector; clear the mode and the pending flag. -/
def ModeManager.showModeSelector (s : ModeManager) : StepResult :=
  if s.switching then { state := s, trace := [], outcome := .busy } else
  let s0 := { s with switching := true }
  let p1 :=
    match s0.currentMode, s0.poseController with
    | some Mode.pose, some _ =>
        ({ s0 with poseController := none, currentPoseEngine := none },
         [Event.stopPose, Event.settle 800])
    | _, _ => (s0, ([] : List Event))
  let s1 := p1.1
  let p2 :=
    match s1.currentMode, s1.arController with
    | some Mode.ar, some c =>
        if c.isARActive then
          ({ s1 with arController := some { c with isARActive := false } },
           [Event.stopAR, Event.settle 500])
        else (s1, ([] : List Event))
    | _, _ => (s1, ([] : List Event))
  let s2 := p2.1
  { state :=
      { s2 with
        screens := { modeSelectorHidden := false, arEngineSelectorHidden := true,
                     poseEngineSelectorHidden := true, arModeHidden := true,
                     poseModeHidden := true },
        currentMode := none, switching := false },
    trace := p1.2 ++ p2.2, outcome := .done }

/-- `showAREngineSelector` (part_003 lines 92-103): screen toggles only, no
guard and no session work. -/
def ModeManager.showAREngineSelector (s : ModeManager) : StepResult :=
  { state :=
      { s with screens := { modeSelectorHidden := true, arEngineSelectorHidden := false,
                            poseEngineSelectorHidden := true, arModeHidden := true,
                            poseModeHidden := true } },
    trace := [], outcome := .done }

/-- `showPoseEngineSelector` (part_003 lines 105-116; src/main.js 83-93):
screen toggles only, no guard and no session work. -/
def ModeManager.showPoseEngineSelector (s : ModeManager) : StepResult :=
  { state :=
      { s with screens := { modeSelectorHidden := true, arEngineSelectorHidden := true,
                            poseEngineSelectorHidden := false, arModeHidden := true,
                            poseModeHidden := true } },
    trace := [], outcome := .done }

/-- `startAFrameAR` (part_003 lines 118-166; `switchToAR` in src/main.js
lines 95-139 is the same logic without the AR-engine bookkeeping): busy
guard; set the pending flag; if a pose controller exists, stop it and wait
800 ms (the reference is kept, only stopped); show the AR screen; set mode
and engine; construct a `WebXRARController` only when none exists yet —
`ctorOk` models the dynamic import succeeding, `sceneLoaded` whether the
A-Frame scene has loaded (otherwise construction is deferred to the scene's
loaded event and does not happen inside this call); clear the pending
flag. -/
def ModeManager.startAFrameAR (ctorOk sceneLoaded : Bool) (s : ModeManager) : StepResult :=
  if s.switching then { state := s, trace := [], outcome := .busy } else
  let s0 := { s with switching := true }
  let p1 :=
    match s0.poseController with
    | some c =>
        ({ s0 with poseController := some { c with isActive := false } },
         [Event.stopPose, Event.settle 800])
    | none => (s0, ([] : List Event))
  let s1 := p1.1
  let s2 :=
    { s1 with
      screens := { modeSelectorHidden := true, arEngineSelectorHidden := true,
                   poseEngineSelectorHidden := true, arModeHidden := false,
                   poseModeHidden := true },
      currentMode := some Mode.ar, currentAREngine := some AREngine.aframe }
  let p3 :=
    match s2.arController with
    | none =>
        if ctorOk && sceneLoaded then
          ({ s2 with arController := some { engine := AREngine.aframe, isARActive := false } },
           [Event.constructAR AREngine.aframe])
        else (s2, ([] : List Event))
    | some _ => (s2, ([] : List Event))
  { state := { p3.1 with switching := false },
    trace := p1.2 ++ p3.2, outcome := .done }

/-- `startThreeJSAR` (part_003 lines 168-205): busy guard; set the pending
flag; if a pose controller exists, stop it and wait 800 ms; show the AR
screen; set mode and engine; then construct a NEW `ThreeJSARController`
unconditionally (when the import succeeds) — a previous AR controller's
reference is overwritten without being stopped; clear the pending flag. -/
def ModeManager.startThreeJSAR (ctorOk : Bool) (s : ModeManager) : StepResult :=
  if s.switching then { state := s, trace := [], outcome := .busy } else
  let s0 := { s with switching := true }
  let p1 :=
    match s0.poseController with
    | some c =>
        ({ s0 with poseController := some { c with isActive := false } },
         [Event.stopPose, Event.settle 800])
    | none => (s0, ([] : List Event))
  let s1 := p1.1
  let s2 :=
    { s1 with
      screens := { modeSelectorHidden := true, arEngineSelectorHidden := true,
                   poseEngineSelectorHidden := true, arModeHidden := false,
                   poseModeHidden := true },
      currentMode := some Mode.ar, currentAREngine := some AREngine.threejs }
  let p3 :=
    if ctorOk then
      ({ s2 with
         arController := some { engine := AREngine.threejs, isARActive := false },
         leakedAR := match s2.arController with
                     | some old => s2.leakedAR ++ [old]
                     | none => s2.leakedAR },
       [Event.constructAR AREngine.threejs])
    else (s2, ([] : List Event))
  { state := { p3.1 with switching := false },
    trace := p1.2 ++ p3.2, outcome := .done }

/-- Shared body of `startMediaPipePose` and `startMoveNetPose`
(part_003 lines 207-253 and 255-301; src/main.js 141-187 and 189-235 are
identical): busy guard; set the pending flag; if the AR controller is
active, stop it and wait 500 ms; show the pose screen; set mode and engine;
then TRY to construct the new controller — note that an existing pose
controller is NOT stopped: on success its reference is simply overwritten
(`leakedPose` records it) and the new controller's asynchronous start
acquires its own camera (modelled by `isActive := true`); on an import or
construction failure the status text shows an error and `poseController`
keeps its previous value; clear the pending flag. -/
def ModeManager.startPose (eng : PoseEngine) (okLabel errLabel : String)
    (ctorOk : Bool) (s : ModeManager) : StepResult :=
  if s.switching then { state := s, trace := [], outcome := .busy } else
  let s0 := { s with switching := true }
  let p1 :=
    match s0.arController with
    | some c =>
        if c.isARActive then
          ({ s0 with arController := some { c with isARActive := false } },
           [Event.stopAR, Event.settle 500])
        else (s0, ([] : List Event))
    | none => (s0, ([] : List Event))
  let s1 := p1.1
  let s2 :=
    { s1 with
      screens := { s1.screens with
                   modeSelectorHidden := true
                   poseEngineSelectorHidden := true
                   arModeHidden := true
                   poseModeHidden := false },
      currentMode := some Mode.pose, currentPoseEngine := some eng }
  let p3 :=
    if ctorOk then
      ({ s2 with
         poseController := some { engine := eng, isActive := true },
         leakedPose := match s2.poseController with
                       | some old => s2.leakedPose ++ [old]
                       | none => s2.leakedPose,
         statusText := okLabel },
       [Event.constructPose eng])
    else ({ s2 with statusText := errLabel }, ([] : List Event))
  { state := { p3.1 with switching := false },
    trace := p1.2 ++ p3.2, outcome := .done }

/-- `startMediaPipePose` (part_003 lines 207-253; src/main.js 141-187). -/
def ModeManager.startMediaPipePose (ctorOk : Bool) (s : ModeManager) : StepResult :=
  ModeManager.startPose PoseEngine.mediapipe "Initializing MediaPipe..."
    "Error loading MediaPipe" ctorOk s

/-- `startMoveNetPose` (part_003 lines 255-301; src/main.js 189-235). -/
def ModeManager.startMoveNetPose (ctorOk : Bool) (s : ModeManager) : StepResult :=
  ModeManager.startPose PoseEngine.movenet "Initializing MoveNet..."
    "Error loading MoveNet" ctorOk s

/-- The part_002 variant of `startThreeJSAR` (unnamed part_002 lines
120-139): busy guard; set the pending flag; if a pose controller exists,
stop it and wait 800 ms; then set `window.location.href` to navigate to the
standalone AR page.  The method ends there: the pending flag is never
cleared on this path. -/
def ModeManager.startThreeJSARpartTwo (s : ModeManager) : StepResult :=
  if s.switching then { state := s, trace := [], outcome := .busy } else
  let s0 := { s with switching := true }
  let p1 :=
    match s0.poseController with
    | some c =>
        ({ s0 with poseController := some { c with isActive := false } },
         [Event.stopPose, Event.settle 800])
    | none => (s0, ([] : List Event))
  let s1 := p1.1
  { state := { s1 with navigatedAway := true },
    trace := p1.2 ++ [Event.navigate], outcome := .done }

/-- The switch-request operations of the part_003 / src/main.js
coordinator, with construction outcomes as parameters. -/
inductive SwitchOp where
  | showModeSelector
  | showAREngineSelector
  | showPoseEngineSelector
  | startAFrameAR (ctorOk sceneLoaded : Bool)
  | startThreeJSAR (ctorOk : Bool)
  | startMediaPipePose (ctorOk : Bool)
  | startMoveNetPose (ctorOk : Bool)
deriving DecidableEq, Repr

/-- Dispatch one coordinator operation. -/
def ModeManager.step (s : ModeManager) : SwitchOp → StepResult
  | .showModeSelector => s.showModeSelector
  | .showAREngineSelector => s.showAREngineSelector
  | .showPoseEngineSelector => s.showPoseEngineSelector
  | .startAFrameAR ctorOk sceneLoaded => s.startAFrameAR ctorOk sceneLoaded
  | .startThreeJSAR ctorOk => s.startThreeJSAR ctorOk
  | .startMediaPipePose ctorOk => s.startMediaPipePose ctorOk
  | .startMoveNetPose ctorOk => s.startMoveNetPose ctorOk

/-- Number of live Sessions in a coordinator state: controllers (current or
leaked) whose camera/GPU resources are acquired. -/
def ModeManager.liveSessions (s : ModeManager) : Nat :=
  (s.leakedPose.filter fun c => c.isActive).length
    + (s.leakedAR.filter fun c => c.isARActive).length
    + (match s.poseController with
       | some c => if c.isActive then 1 else 0
       | none => 0)
    + (match s.arController with
       | some c => if c.isARActive then 1 else 0
       | none => 0)

/-- Whether the currently referenced pose controller holds a live Session. -/
def ModeManager.poseLive (s : ModeManager) : Bool :=
  match s.poseController with
  | some c => c.isActive
  | none => false

/-- Whether the currently referenced AR controller holds a live Session. -/
def ModeManager.arLive (s : ModeManager) : Bool :=
  match s.arController with
  | some c => c.isARActive
  | none => false

/-- Discipline on switch requests under which the single-Session property
holds: a pose-engine start is only issued while no live pose controller is
installed (the screen flow reaches the pose-engine selector only through
`showModeSelector`, which stops and drops the pose controller). -/
def SwitchOp.disciplined (s : ModeManager) : SwitchOp → Prop
  | .startMediaPipePose _ => s.poseLive = false
  | .startMoveNetPose _ => s.poseLive = false
  | _ => True

/-- Coordinator states reachable from the constructor state by disciplined
switch-request operations. -/
inductive ModeManager.ReachableD : ModeManager → Prop
  | init : ModeManager.ReachableD ModeManager.initial
  | step (s : ModeManager) (op : SwitchOp) : ModeManager.ReachableD s →
      op.disciplined s → ModeManager.ReachableD (s.step op).state

/-- Inductive invariant for the single-Session property: every leaked
controller is inactive, and the referenced AR controller is inactive (no
switch-request operation ever activates an AR session; that happens only
through the adapter's own user-driven enterAR). -/
def ModeManager.Inv (s : ModeManager) : Prop :=
  (∀ c ∈ s.leakedPose, c.isActive = false) ∧
  (∀ c ∈ s.leakedAR, c.isARActive = false) ∧
  s.arLive = false

/-- The coordinator state after a successful MediaPipe start from the
constructor state: one live pose Session. -/
def livePoseState : ModeManager :=
  (ModeManager.initial.startMediaPipePose true).state

/-- The coordinator state after then also starting MoveNet while the
MediaPipe controller is still live. -/
def doubleStartState : ModeManager :=
  (livePoseState.startMoveNetPose true).state

/-- A coordinator state whose referenced AR controller holds a live XR
session (as after the user tapped Start AR inside the adapter). -/
def liveARState : ModeManager :=
  { ModeManager.initial with
    currentMode := some Mode.ar,
    currentAREngine := some AREngine.aframe,
    arController := some { engine := AREngine.aframe, isARActive := true } }

/-- A coordinator state in the middle of a switch (pending flag set). -/
def midSwitchState : ModeManager :=
  { ModeManager.initial with switching := true }

/-- A MediaPipe controller with a fully started Session. -/
def runningMediaPipe : PoseDetectionController :=
  { video := true, ctx := true, detector := true, camera := true, isActive := true,
    animationFrameId := false, srcTracks := some 2, videoPaused := false,
    videoSrcEmpty := false, canvasCleared := false, errorShown := false }

/-- A MoveNet controller with a fully started Session. -/
def runningMoveNet : MoveNetDetectionController :=
  { video := true, ctx := true, detector := true, isActive := true,
    animationFrameId := true, srcTracks := some 2, videoPaused := false,
    videoSrcEmpty := false, canvasCleared := false, errorShown := false }

/-- Faults where only the per-track stop throws. -/
def trackFaultOnly : TeardownFaults :=
  { detectorCloseThrows := false, cameraStopThrows := false, trackStopThrows := true }

/-- Faults where detector close and camera stop both throw, but track stop
succeeds. -/
def warnFaultsOnly : TeardownFaults :=
  { detectorCloseThrows := true, cameraStopThrows := true, trackStopThrows := false }

/-- A Three.js AR controller inside an active AR session whose reticle is
currently not visible (no placement surface detected). -/
def scanningThreeJS : ThreeJSARController :=
  { renderer := true, xrSession := true, hitTestSource := true, isARActive := true,
    animLoop := true, reticleVisible := false, reticleX := 0, reticleY := 0,
    reticleZ := 0, sceneObjects := [(1, 0, 2)], placedObjects := [(1, 0, 2)],
    modelCount := 1, statusText := "Scanning...", modelCountLabel := "Models: 1",
    arButtonLabel := "Exit AR" }

/-- A Three.js AR controller before any session exists (as built by the
constructor and `setupThreeJS`). -/
def idleThreeJS : ThreeJSARController :=
  { renderer := true, xrSession := false, hitTestSource := false, isARActive := false,
    animLoop := false, reticleVisible := false, reticleX := 0, reticleY := 0,
    reticleZ := 0, sceneObjects := [], placedObjects := [], modelCount := 0,
    statusText := "Ready (Three.js)", modelCountLabel := "Models: 0",
    arButtonLabel := "Start AR" }

/-- A landmark whose confidence (visibility) is zero. -/
def lowVisLandmark : MPLandmark := { x := 1 / 2, y := 1 / 2, visibility := 0 }

/-- A keypoint list of length 11 whose wrists (indices 9 and 10) score 0.9
and whose other entries score 0.1. -/
def sampleKeypoints : List MNKeypoint :=
  (List.replicate 9 { x := 1, y := 1, score := 1 / 10 : MNKeypoint })
    ++ [{ x := 2, y := 3, score := 9 / 10 }, { x := 4, y := 5, score := 9 / 10 }]

/-- A landmark list of length 17 whose entry 15 sits at (1/4, 1/4) with
zero visibility. -/
def sampleLandmarks : List MPLandmark :=
  (List.replicate 15 { x := 1 / 2, y := 1 / 2, visibility := 1 : MPLandmark })
    ++ [{ x := 1 / 4, y := 1 / 4, visibility := 0 },
        { x := 3 / 4, y := 3 / 4, visibility := 0 }]

/-- C10: a select (tap) event received by the Three.js AR controller while
no placement surface is detected (the reticle is not visible) performs no
state change: no marker is added to the scene or the placed-objects list
and the placement counter is unchanged. -/
theorem onSelect_no_surface_noop (s : ThreeJSARController)
    (h : s.reticleVisible = false) : ThreeJSARController.onSelect s = s := by
  simp [ThreeJSARController.onSelect, h]

/-- Witness for C10 at a concrete in-session controller state. -/
theorem onSelect_no_surface_noop_witness :
    ThreeJSARController.onSelect scanningThreeJS = scanningThreeJS :=
  onSelect_no_surface_noop scanningThreeJS rfl

/-- C3: a switch-request operation invoked while another switch is pending
(the switching flag is set) returns immediately with the busy outcome and
performs no side effects: the same state — mode, engines, both
controllers, and all screens — is returned unchanged with an empty event
trace. -/
theorem busy_request_no_side_effects (s : ModeManager) (h : s.switching = true) :
    s.showModeSelector = { state := s, trace := [], outcome := .busy } ∧
    (∀ a b, s.startAFrameAR a b = { state := s, trace := [], outcome := .busy }) ∧
    (∀ a, s.startThreeJSAR a = { state := s, trace := [], outcome := .busy }) ∧
    (∀ a, s.startMediaPipePose a = { state := s, trace := [], outcome := .busy }) ∧
    (∀ a, s.startMoveNetPose a = { state := s, trace := [], outcome := .busy }) := by
  refine ⟨?_, ?_, ?_, ?_, ?_⟩ <;> intros <;>
    simp [ModeManager.showModeSelector, ModeManager.startAFrameAR,
      ModeManager.startThreeJSAR, ModeManager.startMediaPipePose,
      ModeManager.startMoveNetPose, ModeManager.startPose, h]

/-- Witness for C3: a MediaPipe start issued mid-switch is rejected with no
state change. -/
theorem busy_request_no_side_effects_witness :
    midSwitchState.startMediaPipePose true
      = { state := midSwitchState, trace := [], outcome := .busy } :=
  (busy_request_no_side_effects midSwitchState rfl).2.2.2.1 true

/-- C5, counterexample: part_002's `startThreeJSAR` is a switch-request
operation that completes (outcome `done`, not busy) with the pending flag
still set, after which every further switch request is rejected as busy —
the claim that every operation clears the flag on every exit path is false
on this operation. -/
theorem threejs_nav_leaves_pending_flag :
    (ModeManager.initial.startThreeJSARpartTwo).outcome = SwitchOutcome.done ∧
    (ModeManager.initial.startThreeJSARpartTwo).state.switching = true ∧
    ((ModeManager.initial.startThreeJSARpartTwo).state.startMediaPipePose true).outcome
      = SwitchOutcome.busy := by
  exact ⟨rfl, rfl, rfl⟩

/-- C5, amended: every switch-request operation of the src/main.js and
part_003 coordinator clears the pending flag on every exit path, success
or construction failure, so no sequence of these requests leaves the
coordinator permanently busy; the one exception in the repository is
part_002's `startThreeJSAR`, which navigates away mid-switch (see the
counterexample). -/
theorem pending_flag_cleared (s : ModeManager) (op : SwitchOp)
    (h : s.switching = false) : (s.step op).state.switching = false := by
  cases op <;>
    simp only [ModeManager.step, ModeManager.showModeSelector,
      ModeManager.showAREngineSelector, ModeManager.showPoseEngineSelector,
      ModeManager.startAFrameAR, ModeManager.startThreeJSAR,
      ModeManager.startMediaPipePose, ModeManager.startMoveNetPose,
      ModeManager.startPose, h] <;> rfl

/-- Witness for C5's amended statement: the part_003 Three.js start from
the constructor state finishes with the flag cleared. -/
theorem pending_flag_cleared_witness :
    (ModeManager.initial.step (SwitchOp.startThreeJSAR true)).state.switching = false :=
  pending_flag_cleared ModeManager.initial (SwitchOp.startThreeJSAR true) rfl

/-- C4, counterexample: when the MediaPipe adapter's construction fails,
the coordinator ends with `currentMode = pose`, not None — the mode was
set before the try block and the catch handler never resets it. -/
theorem start_failure_mode_not_none :
    (ModeManager.initial.startMediaPipePose false).state.currentMode = some Mode.pose ∧
    (ModeManager.initial.startMediaPipePose false).state.currentMode ≠ none := by
  exact ⟨rfl, by decide⟩

/-- C4, amended: when adapter construction fails, the coordinator shows an
error status, installs no new controller (the pose-controller reference is
unchanged), and clears the pending flag — but the current mode remains the
requested pose mode rather than None. -/
theorem start_failure_state (s : ModeManager) (h : s.switching = false) :
    ((s.startMediaPipePose false).state.currentMode = some Mode.pose ∧
     (s.startMediaPipePose false).state.poseController = s.poseController ∧
     (s.startMediaPipePose false).state.switching = false ∧
     (s.startMediaPipePose false).state.statusText = "Error loading MediaPipe") ∧
    ((s.startMoveNetPose false).state.currentMode = some Mode.pose ∧
     (s.startMoveNetPose false).state.poseController = s.poseController ∧
     (s.startMoveNetPose false).state.switching = false ∧
     (s.startMoveNetPose false).state.statusText = "Error loading MoveNet") := by
  constructor <;>
    (simp only [ModeManager.startMediaPipePose, ModeManager.startMoveNetPose,
        ModeManager.startPose, h]
     rcases ha : s.arController with _ | d <;> simp [ha] <;> split <;> simp)

/-- Witness for C4's amended statement at the constructor state. -/
theorem start_failure_state_witness :
    (ModeManager.initial.startMediaPipePose false).state.currentMode = some Mode.pose :=
  (start_failure_state ModeManager.initial rfl).1.1

/-- C7, counterexample: when the MediaPipe adapter's camera start fails
(for example, permission denied), the start path returns with the created
detector still allocated and the camera utility instance still installed —
partially acquired resources are not released on this failure path. -/
theorem failed_start_keeps_detector :
    (PoseDetectionController.initRun PoseStartFault.cameraStartFails).detector = true ∧
    (PoseDetectionController.initRun PoseStartFault.cameraStartFails).camera = true ∧
    (PoseDetectionController.initRun PoseStartFault.cameraStartFails).isActive = false := by
  exact ⟨rfl, rfl, rfl⟩

/-- C7, amended: the Three.js AR adapter does release partial acquisitions
on failure — whenever `enterAR` fails at any point after the constructor
state, the XR session handle and the hit-test source end up null (a created
session is explicitly ended, witnessed by the event trace) and no session
is marked active; the MediaPipe pose adapter, by contrast, leaves its
allocated detector and camera instance in place when camera start fails
(see the counterexample). -/
theorem enterAR_failure_releases (s : ThreeJSARController) (f : EnterARFault)
    (hf : f ≠ EnterARFault.ok) (h1 : s.xrSession = false)
    (h2 : s.hitTestSource = false) :
    (s.enterAR f).1.xrSession = false ∧
    (s.enterAR f).1.hitTestSource = false ∧
    (s.enterAR f).1.isARActive = s.isARActive ∧
    (s.enterAR f).1.animLoop = s.animLoop ∧
    (ARXEvent.sessionRequested ∈ (s.enterAR f).2 →
      ARXEvent.sessionEnded ∈ (s.enterAR f).2) := by
  cases f <;> simp_all [ThreeJSARController.enterAR]

/-- Witness for C7's amended statement: a failing session handover from the
idle controller state. -/
theorem enterAR_failure_releases_witness :
    (idleThreeJS.enterAR EnterARFault.setSessionFails).1.xrSession = false :=
  (enterAR_failure_releases idleThreeJS EnterARFault.setSessionFails
    (by decide) rfl rfl).1

/-- C8, counterexample: the per-track stop loop of
`PoseDetectionController.stop` is not wrapped in a try/catch, so an error
thrown while stopping a stream track propagates out of `stop` to its
caller — teardown errors are not all swallowed locally. -/
theorem track_stop_error_propagates :
    (PoseDetectionController.stop trackFaultOnly runningMediaPipe).thrown
      = some TeardownErr.trackStop ∧
    (PoseDetectionController.stop trackFaultOnly runningMediaPipe).state.srcTracks
      = some 2 := by
  exact ⟨rfl, rfl⟩

/-- C8, amended: errors thrown by the detector close and by the camera stop
are swallowed locally inside `stop` (logged as warnings) and the remaining
cleanup still proceeds — whenever the per-track stop does not throw, both
adapters' `stop` completes without propagating any teardown error, with
the detector, camera, and active flags all cleared; an error from stopping
an individual stream track is the one teardown error that escapes. -/
theorem teardown_warnings_swallowed (f : TeardownFaults)
    (s : PoseDetectionController) (t : MoveNetDetectionController)
    (h : f.trackStopThrows = false) :
    ((PoseDetectionController.stop f s).thrown = none ∧
     (PoseDetectionController.stop f s).state.detector = false ∧
     (PoseDetectionController.stop f s).state.camera = false ∧
     (PoseDetectionController.stop f s).state.isActive = false) ∧
    ((MoveNetDetectionController.stop f t).thrown = none ∧
     (MoveNetDetectionController.stop f t).state.detector = false ∧
     (MoveNetDetectionController.stop f t).state.isActive = false) := by
  obtain ⟨fd, fc, ft⟩ := f
  subst h
  constructor
  · obtain ⟨v, cx, de, ca, ia, an, tr, vp, ve, cc, er⟩ := s
    cases v <;> cases cx <;> cases de <;> cases ca <;> cases an <;>
      rcases tr with _ | _ | n <;>
      simp [PoseDetectionController.stop]
  · obtain ⟨v, cx, de, ia, an, tr, vp, ve, cc, er⟩ := t
    cases v <;> cases cx <;> cases de <;> cases an <;>
      rcases tr with _ | _ | n <;>
      simp [MoveNetDetectionController.stop]

/-- Witness for C8's amended statement: with detector-close and camera-stop
faults both firing, `stop` still completes without propagating. -/
theorem teardown_warnings_swallowed_witness :
    (PoseDetectionController.stop warnFaultsOnly runningMediaPipe).thrown = none :=
  (teardown_warnings_swallowed warnFaultsOnly runningMediaPipe runningMoveNet rfl).1.1

set_option maxHeartbeats 2000000 in
/-- C6: `stop` is idempotent for both pose-detection controllers — from any
controller state, and under any teardown-fault environment, calling `stop`
twice in a row reaches exactly the end state of calling it once; in
particular a second `stop` on an already-stopped controller changes
nothing. -/
theorem stop_idempotent (f : TeardownFaults) (s : PoseDetectionController)
    (t : MoveNetDetectionController) :
    (PoseDetectionController.stop f (PoseDetectionController.stop f s).state).state
      = (PoseDetectionController.stop f s).state ∧
    (MoveNetDetectionController.stop f (MoveNetDetectionController.stop f t).state).state
      = (MoveNetDetectionController.stop f t).state := by
  obtain ⟨fd, fc, ft⟩ := f
  constructor
  · obtain ⟨v, cx, de, ca, ia, an, tr, vp, ve, cc, er⟩ := s
    cases ft <;> cases v <;> cases cx <;> cases de <;> cases ca <;> cases an <;>
      rcases tr with _ | _ | n <;> rfl
  · obtain ⟨v, cx, de, ia, an, tr, vp, ve, cc, er⟩ := t
    cases ft <;> cases v <;> cases cx <;> cases de <;> cases an <;>
      rcases tr with _ | _ | n <;> rfl

/-- C2: for every accepted switch request issued while a Session of the
other mode is live, the event trace of the operation starts with that
adapter's stop followed by the settle delay — so every construction event
(and everything else the operation does to sessions) sits strictly after
the stop and the completed delay, and a new Session is never constructed
before the previous one's stop-plus-settle teardown has finished.  The
pose starts stop a live AR session and wait 500 ms; the AR starts stop an
existing pose controller and wait 800 ms; `showModeSelector` (target mode
None) performs the same teardown and constructs nothing. -/
theorem teardown_sequenced_before_construction (s : ModeManager)
    (h : s.switching = false) :
    (∀ a, s.arLive = true →
      ∃ r, (s.startMediaPipePose a).trace = Event.stopAR :: Event.settle 500 :: r) ∧
    (∀ a, s.arLive = true →
      ∃ r, (s.startMoveNetPose a).trace = Event.stopAR :: Event.settle 500 :: r) ∧
    (∀ a b, s.poseLive = true →
      ∃ r, (s.startAFrameAR a b).trace = Event.stopPose :: Event.settle 800 :: r) ∧
    (∀ a, s.poseLive = true →
      ∃ r, (s.startThreeJSAR a).trace = Event.stopPose :: Event.settle 800 :: r) ∧
    (s.currentMode = some Mode.pose → s.poseLive = true →
      s.showModeSelector.trace = [Event.stopPose, Event.settle 800]) ∧
    (s.currentMode = some Mode.ar → s.arLive = true →
      s.showModeSelector.trace = [Event.stopAR, Event.settle 500]) := by
  refine ⟨?_, ?_, ?_, ?_, ?_, ?_⟩
  · intro a ha
    rcases hc : s.arController with _ | c
    · rw [ModeManager.arLive, hc] at ha; exact absurd ha (by simp)
    · have hact : c.isARActive = true := by rw [ModeManager.arLive, hc] at ha; exact ha
      simp [ModeManager.startMediaPipePose, ModeManager.startPose, h, hc, hact]
  · intro a ha
    rcases hc : s.arController with _ | c
    · rw [ModeManager.arLive, hc] at ha; exact absurd ha (by simp)
    · have hact : c.isARActive = true := by rw [ModeManager.arLive, hc] at ha; exact ha
      simp [ModeManager.startMoveNetPose, ModeManager.startPose, h, hc, hact]
  · intro a b hp
    rcases hc : s.poseController with _ | c
    · rw [ModeManager.poseLive, hc] at hp; exact absurd hp (by simp)
    · simp [ModeManager.startAFrameAR, h, hc]
  · intro a hp
    rcases hc : s.poseController with _ | c
    · rw [ModeManager.poseLive, hc] at hp; exact absurd hp (by simp)
    · simp [ModeManager.startThreeJSAR, h, hc]
  · intro hm hp
    rcases hc : s.poseController with _ | c
    · rw [ModeManager.poseLive, hc] at hp; exact absurd hp (by simp)
    · simp [ModeManager.showModeSelector, h, hm, hc]
  · intro hm ha
    rcases hc : s.arController with _ | c
    · rw [ModeManager.arLive, hc] at ha; exact absurd ha (by simp)
    · have hact : c.isARActive = true := by rw [ModeManager.arLive, hc] at ha; exact ha
      rcases hpc : s.poseController with _ | d <;>
        simp [ModeManager.showModeSelector, h, hm, hc, hact, hpc]

/-- Witness for C2: from the state with a live MediaPipe pose Session, the
accepted Three.js AR start stops the pose controller and settles before
any construction. -/
theorem teardown_sequenced_witness :
    ∃ r, (livePoseState.startThreeJSAR true).trace
      = Event.stopPose :: Event.settle 800 :: r :=
  (teardown_sequenced_before_construction livePoseState rfl).2.2.2.1 true rfl

/-- C9, counterexample: the MediaPipe controller's `drawLandmarksManual`
renders a marker for a landmark whose confidence is 0 — below every
threshold in the 0.3-0.5 range — so markers are not rendered "exactly
when" the confidence exceeds the engine's threshold. -/
theorem low_confidence_landmark_drawn :
    DrawCmd.dot (1 / 2 * 640) (1 / 2 * 480) 6 "#00FF00"
      ∈ PoseDetectionController.drawLandmarksManual 640 480 [lowVisLandmark] ∧
    lowVisLandmark.visibility < 3 / 10 := by
  constructor
  · simp [PoseDetectionController.drawLandmarksManual, lowVisLandmark]
  · norm_num [lowVisLandmark]

/-- C9, amended: the MoveNet controller renders a keypoint marker exactly
for the keypoints whose score exceeds its fixed 0.3 threshold (its dot
list equals the spec-side filter-then-mark rendering), and highlights the
wrists (keypoints 9 and 10) distinctly — radius-15 dots in unique colours
with a text label, versus the radius-6 green dots of ordinary keypoints;
the MediaPipe controller instead draws a dot for every delivered landmark
regardless of its visibility (it applies its 0.5 threshold only to
skeleton connection lines) and highlights the wrist landmarks (15 and 16)
whenever they are present, also regardless of confidence. -/
theorem threshold_markers_and_wrists (w h : ℚ) (kps : List MNKeypoint)
    (lms : List MPLandmark) :
    (MoveNetDetectionController.keypointDots w kps = specKeypointMarkers w kps) ∧
    (∀ k, kps[9]? = some k → 3 / 10 < k.score →
      DrawCmd.dot (w - k.x) k.y 15 "#FF00FF"
          ∈ MoveNetDetectionController.drawPose w kps ∧
      DrawCmd.label "LEFT" (w - k.x + 20) k.y
          ∈ MoveNetDetectionController.drawPose w kps) ∧
    (∀ k, kps[10]? = some k → 3 / 10 < k.score →
      DrawCmd.dot (w - k.x) k.y 15 "#00FFFF"
          ∈ MoveNetDetectionController.drawPose w kps) ∧
    (∀ l, l ∈ lms → DrawCmd.dot (l.x * w) (l.y * h) 6 "#00FF00"
          ∈ PoseDetectionController.drawLandmarksManual w h lms) ∧
    (∀ l, lms[15]? = some l →
      DrawCmd.dot (l.x * w) (l.y * h) 15 "#FF00FF"
          ∈ PoseDetectionController.onResultsDraw w h lms) := by
  refine ⟨?_, ?_, ?_, ?_, ?_⟩
  · induction kps with
    | nil => rfl
    | cons k tl ih =>
        simp only [MoveNetDetectionController.keypointDots, specKeypointMarkers,
          List.filterMap_cons, List.filter_cons] at ih ⊢
        by_cases hs : 3 / 10 < k.score <;> simp [hs, ih]
  · intro k hk hs
    constructor <;>
      simp [MoveNetDetectionController.drawPose,
        MoveNetDetectionController.wristHighlight, hk, hs]
  · intro k hk hs
    simp [MoveNetDetectionController.drawPose,
      MoveNetDetectionController.wristHighlight, hk, hs]
  · intro l hl
    exact List.mem_map_of_mem _ hl
  · intro l hl
    simp [PoseDetectionController.onResultsDraw,
      PoseDetectionController.drawHandLandmarks, hl]

/-- Witness for C9's amended statement: the left-wrist keypoint of the
sample frame is rendered as the large magenta labelled marker. -/
theorem threshold_markers_and_wrists_witness :
    DrawCmd.dot (640 - 2) 3 15 "#FF00FF"
      ∈ MoveNetDetectionController.drawPose 640 sampleKeypoints :=
  ((threshold_markers_and_wrists 640 480 sampleKeypoints sampleLandmarks).2.1
    { x := 2, y := 3, score := 9 / 10 } rfl (by norm_num)).1

/-- The constructor state satisfies the single-Session invariant. -/
theorem inv_initial : ModeManager.initial.Inv := by
  refine ⟨?_, ?_, rfl⟩ <;> intro c hc <;> simp [ModeManager.initial] at hc

/-- A pose-engine start issued while no live pose controller is installed
preserves the single-Session invariant. -/
theorem inv_startPose (eng : PoseEngine) (okL errL : String) (ctorOk : Bool)
    (s : ModeManager) (hI : s.Inv) (hd : s.poseLive = false) :
    (ModeManager.startPose eng okL errL ctorOk s).state.Inv := by
  obtain ⟨h1, h2, h3⟩ := hI
  by_cases hsw : s.switching
  · simpa [ModeManager.startPose, hsw, ModeManager.Inv] using ⟨h1, h2, h3⟩
  · rcases hac : s.arController with _ | ac <;>
      rcases hpc : s.poseController with _ | pc <;>
      cases ctorOk <;>
      simp_all [ModeManager.startPose, ModeManager.Inv, ModeManager.arLive,
        ModeManager.poseLive] <;>
      (rintro c (hc | rfl) <;> first | exact h1 c hc | assumption)

/-- `showModeSelector` preserves the single-Session invariant. -/
theorem inv_showModeSelector (s : ModeManager) (hI : s.Inv) :
    s.showModeSelector.state.Inv := by
  obtain ⟨h1, h2, h3⟩ := hI
  by_cases hsw : s.switching
  · simpa [ModeManager.showModeSelector, hsw, ModeManager.Inv] using ⟨h1, h2, h3⟩
  · rcases hcm : s.currentMode with _ | m <;> [skip; cases m] <;>
      rcases hac : s.arController with _ | ac <;>
      rcases hpc : s.poseController with _ | pc <;>
      simp_all [ModeManager.showModeSelector, ModeManager.Inv, ModeManager.arLive]

/-- `startAFrameAR` preserves the single-Session invariant. -/
theorem inv_startAFrameAR (ctorOk sceneLoaded : Bool) (s : ModeManager)
    (hI : s.Inv) : (s.startAFrameAR ctorOk sceneLoaded).state.Inv := by
  obtain ⟨h1, h2, h3⟩ := hI
  by_cases hsw : s.switching
  · simpa [ModeManager.startAFrameAR, hsw, ModeManager.Inv] using ⟨h1, h2, h3⟩
  · rcases hac : s.arController with _ | ac <;>
      rcases hpc : s.poseController with _ | pc <;>
      cases ctorOk <;> cases sceneLoaded <;>
      simp_all [ModeManager.startAFrameAR, ModeManager.Inv, ModeManager.arLive]

/-- `startThreeJSAR` preserves the single-Session invariant: the AR
controller it overwrites is inactive (no switch-request operation
activates an AR session), so the leaked list stays inactive. -/
theorem inv_startThreeJSAR (ctorOk : Bool) (s : ModeManager) (hI : s.Inv) :
    (s.startThreeJSAR ctorOk).state.Inv := by
  obtain ⟨h1, h2, h3⟩ := hI
  by_cases hsw : s.switching
  · simpa [ModeManager.startThreeJSAR, hsw, ModeManager.Inv] using ⟨h1, h2, h3⟩
  · rcases hac : s.arController with _ | ac <;>
      rcases hpc : s.poseController with _ | pc <;>
      cases ctorOk <;>
      simp_all [ModeManager.startThreeJSAR, ModeManager.Inv, ModeManager.arLive] <;>
      (rintro c (hc | rfl) <;> first | exact h2 c hc | assumption)

/-- Every disciplined switch-request operation preserves the
single-Session invariant. -/
theorem inv_step (s : ModeManager) (op : SwitchOp) (hI : s.Inv)
    (hd : op.disciplined s) : (s.step op).state.Inv := by
  cases op with
  | showModeSelector => exact inv_showModeSelector s hI
  | showAREngineSelector =>
      obtain ⟨h1, h2, h3⟩ := hI
      exact ⟨h1, h2, h3⟩
  | showPoseEngineSelector =>
      obtain ⟨h1, h2, h3⟩ := hI
      exact ⟨h1, h2, h3⟩
  | startAFrameAR a b => exact inv_startAFrameAR a b s hI
  | startThreeJSAR a => exact inv_startThreeJSAR a s hI
  | startMediaPipePose a => exact inv_startPose _ _ _ a s hI hd
  | startMoveNetPose a => exact inv_startPose _ _ _ a s hI hd

/-- Under the single-Session invariant at most one Session is live. -/
theorem liveSessions_le_one_of_inv (s : ModeManager) (hI : s.Inv) :
    s.liveSessions ≤ 1 := by
  obtain ⟨h1, h2, h3⟩ := hI
  have e1 : s.leakedPose.filter (fun c => c.isActive) = [] := by
    rw [List.filter_eq_nil_iff]
    intro c hc
    simp [h1 c hc]
  have e2 : s.leakedAR.filter (fun c => c.isARActive) = [] := by
    rw [List.filter_eq_nil_iff]
    intro c hc
    simp [h2 c hc]
  unfold ModeManager.liveSessions
  rw [e1, e2]
  rcases hpc : s.poseController with _ | pc <;>
    rcases hac : s.arController with _ | ac <;>
    simp_all [ModeManager.arLive] <;>
    split <;> simp

/-- C1, counterexample: starting MoveNet while the MediaPipe controller is
still live does not stop MediaPipe — the coordinator ends with the new
MoveNet controller installed AND the still-active MediaPipe controller
leaked, i.e. two Sessions holding camera resources at once. -/
theorem double_pose_session_leak :
    doubleStartState.liveSessions = 2 ∧
    doubleStartState.poseController
      = some { engine := PoseEngine.movenet, isActive := true } ∧
    doubleStartState.leakedPose
      = [{ engine := PoseEngine.mediapipe, isActive := true }] := by
  exact ⟨rfl, rfl, rfl⟩

/-- C1, amended: in every sequence of switch-request operations in which a
pose-engine start is only issued while no live pose controller is
installed (the discipline the screen flow enforces, since the pose-engine
selector is reached through `showModeSelector`, which stops and drops the
pose controller), at most one controller holds a live Session at any
instant.  Without that restriction the property fails: a pose-engine start
issued while the other pose engine's controller is live overwrites the
reference without stopping it, leaving two controllers holding camera
resources (see the counterexample). -/
theorem single_session_disciplined (s : ModeManager)
    (hr : ModeManager.ReachableD s) : s.liveSessions ≤ 1 := by
  have hInv : s.Inv := by
    induction hr with
    | init => exact inv_initial
    | step t op ht hd ih => exact inv_step t op ih hd
  exact liveSessions_le_one_of_inv s hInv

/-- Witness for C1's amended statement: the disciplined two-step run that
starts MediaPipe from the constructor state keeps at most one Session. -/
theorem single_session_disciplined_witness :
    (ModeManager.initial.step (SwitchOp.startMediaPipePose true)).state.liveSessions ≤ 1 :=
  single_session_disciplined _
    (ModeManager.ReachableD.step ModeManager.initial
      (SwitchOp.startMediaPipePose true) ModeManager.ReachableD.init rfl)
